import Mathlib

/-!
# Verification of the HealthSync backend (hospital repository)

Shallow embedding in Lean 4 of the logic of `src/backend/server.py` and
`src/backend/ai_services.py`: the habit scoring/reward engine, the
LLM-response normalization layer with its per-endpoint fallback payloads,
the urgency keyword classifier, the same-day habit-log uniqueness guard,
and the token ledger/balance state machine.

Python `float` values are modelled as `ℚ`, Python `int` as `ℤ`.  Python
truthiness of an optional numeric field (`habit_data.get(k)`) holds exactly
when the field is present and non-zero; this is modelled explicitly.
-/

namespace HealthSync

/-- The habit metric fields of `HabitCreate` / the `habit_dict` passed to
`calculate_health_score` in `server.py` (user_id and notes omitted: they do
not enter the scoring or reward computations). -/
structure HabitData where
  sleep_hours : Option ℚ
  exercise_minutes : Option ℤ
  steps_count : Option ℤ
  water_glasses : Option ℤ
  fruits_vegetables : Option ℤ
  calories_consumed : Option ℤ
  mood_rating : Option ℤ
  stress_level : Option ℤ
  meditation_minutes : Option ℤ
  weight : Option ℚ
  blood_pressure_systolic : Option ℤ
  blood_pressure_diastolic : Option ℤ
  heart_rate : Option ℤ
  deriving DecidableEq

/-- Sleep block of `calculate_health_score`: if `habit_data.get('sleep_hours')`
is truthy, contribute `min(20, max(0, (sleep_hours - 4) * 4))`. -/
def sleepContrib (h : HabitData) : Option ℚ :=
  match h.sleep_hours with
  | some s => if s = 0 then none else some (min 20 (max 0 ((s - 4) * 4)))
  | none => none

/-- Exercise block: `min(25, exercise_minutes / 2)` when truthy. -/
def exerciseContrib (h : HabitData) : Option ℚ :=
  match h.exercise_minutes with
  | some e => if e = 0 then none else some (min 25 ((e : ℚ) / 2))
  | none => none

/-- Steps block: `min(15, steps_count / 667)` when truthy. -/
def stepsContrib (h : HabitData) : Option ℚ :=
  match h.steps_count with
  | some c => if c = 0 then none else some (min 15 ((c : ℚ) / 667))
  | none => none

/-- Water block: `min(10, water_glasses * 1.25)` when truthy. -/
def waterContrib (h : HabitData) : Option ℚ :=
  match h.water_glasses with
  | some w => if w = 0 then none else some (min 10 ((w : ℚ) * 1.25))
  | none => none

/-- Nutrition block: `min(15, fruits_vegetables * 3)` when truthy. -/
def nutritionContrib (h : HabitData) : Option ℚ :=
  match h.fruits_vegetables with
  | some f => if f = 0 then none else some (min 15 ((f : ℚ) * 3))
  | none => none

/-- Mood block: `mood_rating * 3` when truthy (note: uncapped in the source). -/
def moodContrib (h : HabitData) : Option ℚ :=
  match h.mood_rating with
  | some m => if m = 0 then none else some ((m : ℚ) * 3)
  | none => none

/-- Stress block: `max(0, (6 - stress_level) * 3)` when truthy. -/
def stressContrib (h : HabitData) : Option ℚ :=
  match h.stress_level with
  | some st => if st = 0 then none else some (max 0 ((6 - (st : ℚ)) * 3))
  | none => none

/-- The seven metric blocks of `calculate_health_score` in source order;
`none` means the block was skipped (field absent or falsy). -/
def contribs (h : HabitData) : List (Option ℚ) :=
  [sleepContrib h, exerciseContrib h, stepsContrib h, waterContrib h,
   nutritionContrib h, moodContrib h, stressContrib h]

/-- One block of the `score`/`factors` accumulation: a skipped block leaves
the accumulator alone, an executed block does `score += v; factors += 1`. -/
def contribStep (acc : ℚ × ℕ) : Option ℚ → ℚ × ℕ
  | none => acc
  | some v => (acc.1 + v, acc.2 + 1)

/-- Function `calculate_health_score` (server.py lines 243-289): accumulate the
per-metric contributions, then
`return score / max(1, factors) if factors > 0 else 0.0`. -/
def calculate_health_score (h : HabitData) : ℚ :=
  let acc := (contribs h).foldl contribStep (0, 0)
  if 0 < acc.2 then acc.1 / ((max 1 acc.2 : ℕ) : ℚ) else 0

/-- Sleep bonus in `log_habit`:
`if habit_dict.get('sleep_hours') and habit_dict['sleep_hours'] >= 7: tokens_earned += 20`. -/
def sleepBonus (h : HabitData) : ℤ :=
  match h.sleep_hours with
  | some s => if s ≠ 0 ∧ 7 ≤ s then 20 else 0
  | none => 0

/-- Exercise bonus: `exercise_minutes >= 30 → += 30` (guarded by truthiness). -/
def exerciseBonus (h : HabitData) : ℤ :=
  match h.exercise_minutes with
  | some e => if e ≠ 0 ∧ 30 ≤ e then 30 else 0
  | none => 0

/-- Steps bonus: `steps_count >= 8000 → += 25` (guarded by truthiness). -/
def stepsBonus (h : HabitData) : ℤ :=
  match h.steps_count with
  | some c => if c ≠ 0 ∧ 8000 ≤ c then 25 else 0
  | none => 0

/-- Water bonus: `water_glasses >= 8 → += 15` (guarded by truthiness). -/
def waterBonus (h : HabitData) : ℤ :=
  match h.water_glasses with
  | some w => if w ≠ 0 ∧ 8 ≤ w then 15 else 0
  | none => 0

/-- Nutrition bonus: `fruits_vegetables >= 3 → += 20` (guarded by truthiness). -/
def nutritionBonus (h : HabitData) : ℤ :=
  match h.fruits_vegetables with
  | some f => if f ≠ 0 ∧ 3 ≤ f then 20 else 0
  | none => 0

/-- Mood bonus: `mood_rating >= 4 → += 10` (guarded by truthiness). -/
def moodBonus (h : HabitData) : ℤ :=
  match h.mood_rating with
  | some m => if m ≠ 0 ∧ 4 ≤ m then 10 else 0
  | none => 0

/-- Meditation bonus: `meditation_minutes >= 10 → += 15` (guarded by truthiness). -/
def meditationBonus (h : HabitData) : ℤ :=
  match h.meditation_minutes with
  | some m => if m ≠ 0 ∧ 10 ≤ m then 15 else 0
  | none => 0

/-- Stress bonus: `stress_level <= 2 → += 10` (guarded by truthiness, so a
supplied value of exactly 0 earns nothing even though `0 <= 2`). -/
def stressBonus (h : HabitData) : ℤ :=
  match h.stress_level with
  | some st => if st ≠ 0 ∧ st ≤ 2 then 10 else 0
  | none => 0

/-- Value `tokens_earned` as computed in `log_habit` (server.py lines 461-484):
the eight independent `tokens_earned +=` blocks, in source order. -/
def tokensEarned (h : HabitData) : ℤ :=
  sleepBonus h + exerciseBonus h + stepsBonus h + waterBonus h +
  nutritionBonus h + moodBonus h + meditationBonus h + stressBonus h

/-! ## LLM response normalization (server.py / ai_services.py)

The outcome of the external LLM call: either a raw text completion or a
raised error.  `json.loads` is an external library call, so JSON decoding
is a parameter `decode : String → Option J` of each model (`none` models
`json.JSONDecodeError`); the result dictionary type `J` is abstract, with
an injection from the concrete fallback payload type. -/

inductive LlmOutcome where
  | ok (text : String)
  | err
  deriving DecidableEq

/-- The five-field fallback dictionary shape used in `analyze_medical_record`
(`health_metrics` is `{"status": ...}` in both fallbacks, modelled by its
`status` string). -/
structure MedAnalysisFallback where
  summary : String
  risk_assessment : String
  health_metrics_status : String
  recommendations : String
  priority_level : String
  deriving DecidableEq

/-- The `except json.JSONDecodeError` fallback of `analyze_medical_record`
(server.py lines 222-230): `summary` is the raw response, truncated to 300
characters with an appended `"..."` when longer. -/
def medRecordDecodeFallback (response : String) : MedAnalysisFallback where
  summary := if response.length > 300 then response.take 300 ++ "..." else response
  risk_assessment := "Comprehensive medical analysis completed. Consult healthcare provider for detailed assessment."
  health_metrics_status := "extracted"
  recommendations := "Follow medical advice and maintain regular checkups."
  priority_level := "Medium"

/-- The `except Exception` fallback of `analyze_medical_record`
(server.py lines 233-241). -/
def medRecordErrorFallback : MedAnalysisFallback where
  summary := "Medical record uploaded successfully. AI analysis temporarily unavailable."
  risk_assessment := "Please consult healthcare provider for assessment."
  health_metrics_status := "pending"
  recommendations := "Follow prescribed treatment plan."
  priority_level := "Medium"

/-- Function `analyze_medical_record` (server.py lines 190-241), as a function of the
LLM call's outcome: on a text response, `json.loads` it and return the decoded
structure, else the decode fallback; on a raised error, the error fallback. -/
def analyzeMedicalRecord {J : Type} (decode : String → Option J)
    (inj : MedAnalysisFallback → J) : LlmOutcome → J
  | .ok response =>
    match decode response with
    | some analysis => analysis
    | none => inj (medRecordDecodeFallback response)
  | .err => inj medRecordErrorFallback

/-- The fallback dictionary shape of
`MedicationInteractionChecker.check_medication_interactions`. -/
structure MedCheckFallback where
  interaction_level : String
  interactions : List String
  warnings : List String
  recommendations : List String
  safe_to_take : Bool
  deriving DecidableEq

/-- The `except json.JSONDecodeError` fallback of
`check_medication_interactions` (ai_services.py lines 358-365). -/
def medCheckDecodeFallback : MedCheckFallback where
  interaction_level := "unknown"
  interactions := []
  warnings := ["Unable to analyze interactions. Consult pharmacist."]
  recommendations := ["Verify with healthcare provider"]
  safe_to_take := false

/-- The `except Exception` fallback of `check_medication_interactions`
(ai_services.py lines 367-375). -/
def medCheckErrorFallback : MedCheckFallback where
  interaction_level := "error"
  interactions := []
  warnings := ["System error. Consult healthcare provider immediately."]
  recommendations := ["Contact pharmacist for interaction check"]
  safe_to_take := false

/-- Method `MedicationInteractionChecker.check_medication_interactions`
(ai_services.py lines 318-375) as a function of the LLM call's outcome. -/
def checkMedicationInteractions {J : Type} (decode : String → Option J)
    (inj : MedCheckFallback → J) : LlmOutcome → J
  | .ok response =>
    match decode response with
    | some result => result
    | none => inj medCheckDecodeFallback
  | .err => inj medCheckErrorFallback

/-- The dictionary built by
`PredictiveHealthAnalytics._create_fallback_analysis` (ai_services.py lines
272-312), flattened: the single element of `risk_predictions` contributes the
condition/risk/confidence/factors/timeline fields, `trend_analysis`
contributes the three trend lists. -/
structure FallbackAnalysis where
  overall_health_score : ℚ
  condition : String
  risk_level : String
  risk_percentage : ℤ
  confidence : ℤ
  factors : List String
  timeline : String
  improving : List String
  declining : List String
  stable : List String
  recommendations : List String
  predicted_outcomes : List String
  deriving DecidableEq

/-- Method `_create_fallback_analysis`: risk tier from
`user_data.get("health_score", 85)`, then the static payload. -/
def createFallbackAnalysis (health_score : ℚ) : FallbackAnalysis :=
  let tier : String × ℤ :=
    if health_score ≥ 90 then ("low", 15)
    else if health_score ≥ 75 then ("medium", 35)
    else ("high", 65)
  { overall_health_score := health_score
    condition := "General Health Decline"
    risk_level := tier.1
    risk_percentage := tier.2
    confidence := 75
    factors := ["Health score", "Habit consistency"]
    timeline := "6-12 months"
    improving := ["Overall wellness tracking"]
    declining := []
    stable := ["Health score maintenance"]
    recommendations := ["Maintain consistent health habits",
      "Regular health monitoring", "Consult healthcare provider annually"]
    predicted_outcomes := ["Continued health improvement with consistent habits"] }

/-- Method `PredictiveHealthAnalytics.analyze_health_trends` (ai_services.py lines
170-222) as a function of the LLM call's outcome; `health_score` stands for
`user_data.get("health_score", 85)`, the only part of `user_data`/`habits_data`
that `_create_fallback_analysis` reads. -/
def analyzeHealthTrends {J : Type} (decode : String → Option J)
    (inj : FallbackAnalysis → J) (health_score : ℚ) : LlmOutcome → J
  | .ok response =>
    match decode response with
    | some prediction => prediction
    | none => inj (createFallbackAnalysis health_score)
  | .err => inj (createFallbackAnalysis health_score)

/-! ## Urgency classifier (`AIHealthAssistant._analyze_urgency`) -/

/-- Predicate `startsWithL a b` holds when list `a` is an initial segment of list `b`. -/
def startsWithL : List Char → List Char → Bool
  | [], _ => true
  | _ :: _, [] => false
  | a :: as, b :: bs => a == b && startsWithL as bs

/-- Python's substring test `needle in hay` on character lists. -/
def containsL (needle : List Char) : List Char → Bool
  | [] => startsWithL needle []
  | b :: bs => startsWithL needle (b :: bs) || containsL needle bs

/-- List `emergency_keywords` (ai_services.py line 135). -/
def emergencyKeywords : List (List Char) :=
  ["emergency".toList, "urgent".toList, "severe".toList, "critical".toList,
   "immediately".toList, "hospital".toList, "911".toList, "chest pain".toList,
   "breathing".toList, "unconscious".toList]

/-- List `high_keywords` (ai_services.py line 136). -/
def highKeywords : List (List Char) :=
  ["pain".toList, "fever".toList, "bleeding".toList, "dizzy".toList,
   "nausea".toList, "doctor".toList]

/-- The lowercased `text_to_check = (message + " " + response).lower()`. -/
def urgencyText (message response : String) : List Char :=
  (message ++ " " ++ response).toList.map Char.toLower

/-- Method `AIHealthAssistant._analyze_urgency` (ai_services.py lines 132-145):
first matching keyword tier wins, default `"medium"`. -/
def analyzeUrgency (message response : String) : String :=
  let text := urgencyText message response
  if emergencyKeywords.any (fun k => containsL k text) then "emergency"
  else if highKeywords.any (fun k => containsL k text) then "high"
  else "medium"

/-! ## Habit-log uniqueness (`log_habit`, server.py lines 450-507) -/

/-- A stored habit document: the key fields consulted by the duplicate
check plus the derived fields computed at insert time. -/
structure HabitRow where
  user_id : String
  date : String
  data : HabitData
  tokens_earned : ℤ
  health_score_impact : ℚ

/-- Endpoint `log_habit`: `find_one({"user_id": ..., "date": today})`; if a document
exists, raise HTTP 400 (modelled as `none`, with no insert); otherwise
compute rewards/score and `insert_one` (modelled as appending the new row),
returning the new collection state and the inserted row. -/
def logHabit (habits : List HabitRow) (userId today : String)
    (d : HabitData) : Option (List HabitRow × HabitRow) :=
  if habits.any (fun r => r.user_id == userId && r.date == today) then none
  else
    let row : HabitRow :=
      { user_id := userId, date := today, data := d,
        tokens_earned := tokensEarned d,
        health_score_impact := calculate_health_score d }
    some (habits ++ [row], row)

/-- Habit-collection states reachable from an empty collection by
successful `log_habit` inserts. -/
inductive HabitsReachable : List HabitRow → Prop
  | init : HabitsReachable []
  | log {s s' : List HabitRow} {u t : String} {d : HabitData} {r : HabitRow} :
      HabitsReachable s → logHabit s u t d = some (s', r) → HabitsReachable s'

/-! ## Token ledger (`award_tokens`, server.py lines 603-617) -/

/-- A `users` collection document, reduced to the fields the token system
touches. -/
structure UserRow where
  id : String
  tokens : ℤ
  deriving DecidableEq

/-- A `token_transactions` document, reduced to the fields that determine
the balance invariant. -/
structure Txn where
  user_id : String
  amount : ℤ
  deriving DecidableEq

/-- The joint state of the `users` and `token_transactions` collections. -/
structure TokenState where
  users : List UserRow
  ledger : List Txn

/-- Endpoint `create_user` (server.py lines 402-408): insert a fresh user document
with the model default `tokens: int = 0`. -/
def createUser (s : TokenState) (id : String) : TokenState :=
  { users := s.users ++ [{ id := id, tokens := 0 }], ledger := s.ledger }

/-- Function `award_tokens` (server.py lines 603-617):
`update_one({"id": user_id}, {"$inc": {"tokens": amount}})` followed by
inserting the transaction document.  User ids are unique (uuid4), so
updating every matching document coincides with Mongo's update-one. -/
def awardTokens (s : TokenState) (userId : String) (amount : ℤ) : TokenState :=
  { users := s.users.map fun u =>
      if u.id == userId then { u with tokens := u.tokens + amount } else u,
    ledger := s.ledger ++ [{ user_id := userId, amount := amount }] }

/-- Sum of the signed amounts of a user's ledger entries. -/
def ledgerSum (l : List Txn) (uid : String) : ℤ :=
  ((l.filter fun t => t.user_id == uid).map Txn.amount).sum

/-- Token states reachable from empty collections by user creation and
token awards.  `create` carries the freshness of the uuid4-generated id:
no existing user document and no ledger entry uses it. -/
inductive TokenReachable : TokenState → Prop
  | init : TokenReachable { users := [], ledger := [] }
  | create {s : TokenState} {id : String} :
      TokenReachable s →
      (∀ u ∈ s.users, u.id ≠ id) →
      (∀ t ∈ s.ledger, t.user_id ≠ id) →
      TokenReachable (createUser s id)
  | award {s : TokenState} {uid : String} {amt : ℤ} :
      TokenReachable s → TokenReachable (awardTokens s uid amt)

/-! ## Concrete habit inputs used in witnesses and counterexamples -/

/-- A habit submission with every metric field absent. -/
def emptyHabit : HabitData where
  sleep_hours := none
  exercise_minutes := none
  steps_count := none
  water_glasses := none
  fruits_vegetables := none
  calories_consumed := none
  mood_rating := none
  stress_level := none
  meditation_minutes := none
  weight := none
  blood_pressure_systolic := none
  blood_pressure_diastolic := none
  heart_rate := none

/-- A habit submission whose only metric is exercise at the source's
optimal value (`# 50+ minutes optimal`), which attains the 25-point cap. -/
def exerciseOnlyHabit : HabitData :=
  { emptyHabit with exercise_minutes := some 50 }

/-- A habit submission with every scored or rewarded metric supplied as 0. -/
def allZeroHabit : HabitData :=
  { emptyHabit with
    sleep_hours := some 0, exercise_minutes := some 0, steps_count := some 0,
    water_glasses := some 0, fruits_vegetables := some 0,
    calories_consumed := some 0, mood_rating := some 0, stress_level := some 0,
    meditation_minutes := some 0 }

/-! ## The score is the average of the contributions of present metrics -/

/-- The capped point contributions of the metrics actually present
(present in the source's sense: supplied and truthy). -/
def presentContribs (h : HabitData) : List ℚ :=
  (contribs h).reduceOption

lemma foldl_contribStep (l : List (Option ℚ)) (a : ℚ) (n : ℕ) :
    l.foldl contribStep (a, n) =
      (a + l.reduceOption.sum, n + l.reduceOption.length) := by
  induction l generalizing a n with
  | nil => simp [List.reduceOption]
  | cons x t ih =>
    cases x with
    | none => simpa [contribStep, List.reduceOption] using ih a n
    | some v =>
      simp only [List.foldl_cons, contribStep, ih, List.reduceOption_cons_of_some,
        List.sum_cons, List.length_cons]
      refine Prod.ext ?_ ?_
      · ring
      · simp; omega

/-- Shared helper: the score equals the average of the present contributions
(and 0 when none is present). -/
lemma score_eq_avg (h : HabitData) :
    calculate_health_score h =
      if presentContribs h = [] then 0
      else (presentContribs h).sum / ((presentContribs h).length : ℚ) := by
  unfold calculate_health_score presentContribs
  rw [foldl_contribStep]
  by_cases hc : (contribs h).reduceOption = []
  · simp [hc]
  · have hl : 0 < (contribs h).reduceOption.length := List.length_pos.mpr hc
    have hm : max 1 (0 + (contribs h).reduceOption.length) =
        (contribs h).reduceOption.length := by omega
    simp only [zero_add] at hm ⊢
    rw [if_pos hl, if_neg hc, hm]

/-- C1 (counterexample): the claim that a user who logs only one metric at
its optimal value receives a full 100-equivalent average is false: logging
only exercise at the source's optimal 50 minutes — which attains that
metric's 25-point cap — yields a health score of 25, not 100. -/
theorem score_single_optimal_metric_not_100 :
    calculate_health_score exerciseOnlyHabit = 25 ∧ (25 : ℚ) ≠ 100 := by
  constructor
  · norm_num [calculate_health_score, contribs, sleepContrib, exerciseContrib,
      stepsContrib, waterContrib, nutritionContrib, moodContrib, stressContrib,
      contribStep, exerciseOnlyHabit, emptyHabit]
  · norm_num

/-- C1 (amended): for every habit input, the computed health score equals
the average of the per-metric capped point contributions over the count of
metrics actually present (a metric is present when supplied and non-zero;
absent metrics are excluded from both numerator and denominator), and
consequently a user who logs only one metric at its optimal value receives
that single metric's full capped contribution undiluted by the absent
metrics (25 for optimal exercise alone) — not a 100-equivalent average. -/
theorem score_is_average_of_present_contribs :
    (∀ h : HabitData, calculate_health_score h =
      if presentContribs h = [] then 0
      else (presentContribs h).sum / ((presentContribs h).length : ℚ)) ∧
    calculate_health_score exerciseOnlyHabit = 25 ∧
    presentContribs exerciseOnlyHabit = [25] := by
  refine ⟨score_eq_avg, ?_, ?_⟩ <;>
    norm_num [calculate_health_score, presentContribs, contribs, sleepContrib,
      exerciseContrib, stepsContrib, waterContrib, nutritionContrib,
      moodContrib, stressContrib, contribStep, List.reduceOption_cons_of_some,
      List.reduceOption_cons_of_none, List.reduceOption_nil,
      exerciseOnlyHabit, emptyHabit]

/-- Zero metrics supplied: every metric field of the habit submission is
absent (`None`). -/
def noMetrics (h : HabitData) : Prop :=
  h.sleep_hours = none ∧ h.exercise_minutes = none ∧ h.steps_count = none ∧
  h.water_glasses = none ∧ h.fruits_vegetables = none ∧
  h.calories_consumed = none ∧ h.mood_rating = none ∧ h.stress_level = none ∧
  h.meditation_minutes = none

/-- C8: for every habit input in which zero metrics are present, the
computed health score is 0 and the token reward is 0. -/
theorem zero_metrics_zero_score_and_reward (h : HabitData) (hz : noMetrics h) :
    calculate_health_score h = 0 ∧ tokensEarned h = 0 := by
  obtain ⟨h1, h2, h3, h4, h5, h6, h7, h8, h9⟩ := hz
  constructor
  · simp [calculate_health_score, contribs, sleepContrib, exerciseContrib,
      stepsContrib, waterContrib, nutritionContrib, moodContrib, stressContrib,
      h1, h2, h3, h4, h5, h7, h8, contribStep]
  · simp [tokensEarned, sleepBonus, exerciseBonus, stepsBonus, waterBonus,
      nutritionBonus, moodBonus, meditationBonus, stressBonus,
      h1, h2, h3, h4, h5, h7, h8, h9]

/-- C8 (witness): the all-absent habit submission scores 0 and earns 0. -/
theorem zero_metrics_zero_score_and_reward_witness :
    calculate_health_score emptyHabit = 0 ∧ tokensEarned emptyHabit = 0 :=
  zero_metrics_zero_score_and_reward emptyHabit
    ⟨rfl, rfl, rfl, rfl, rfl, rfl, rfl, rfl, rfl⟩

/-- C10: a metric supplied with value 0 is treated identically to an absent
metric by both the health-score computation and the token-reward
computation, so a record of all-zero metrics behaves exactly like a record
with no metrics (score 0, reward 0). -/
theorem zero_metric_eq_absent (h : HabitData) :
    (calculate_health_score { h with sleep_hours := some 0 } =
       calculate_health_score { h with sleep_hours := none } ∧
     calculate_health_score { h with exercise_minutes := some 0 } =
       calculate_health_score { h with exercise_minutes := none } ∧
     calculate_health_score { h with steps_count := some 0 } =
       calculate_health_score { h with steps_count := none } ∧
     calculate_health_score { h with water_glasses := some 0 } =
       calculate_health_score { h with water_glasses := none } ∧
     calculate_health_score { h with fruits_vegetables := some 0 } =
       calculate_health_score { h with fruits_vegetables := none } ∧
     calculate_health_score { h with mood_rating := some 0 } =
       calculate_health_score { h with mood_rating := none } ∧
     calculate_health_score { h with stress_level := some 0 } =
       calculate_health_score { h with stress_level := none } ∧
     calculate_health_score { h with meditation_minutes := some 0 } =
       calculate_health_score { h with meditation_minutes := none }) ∧
    (tokensEarned { h with sleep_hours := some 0 } =
       tokensEarned { h with sleep_hours := none } ∧
     tokensEarned { h with exercise_minutes := some 0 } =
       tokensEarned { h with exercise_minutes := none } ∧
     tokensEarned { h with steps_count := some 0 } =
       tokensEarned { h with steps_count := none } ∧
     tokensEarned { h with water_glasses := some 0 } =
       tokensEarned { h with water_glasses := none } ∧
     tokensEarned { h with fruits_vegetables := some 0 } =
       tokensEarned { h with fruits_vegetables := none } ∧
     tokensEarned { h with mood_rating := some 0 } =
       tokensEarned { h with mood_rating := none } ∧
     tokensEarned { h with stress_level := some 0 } =
       tokensEarned { h with stress_level := none } ∧
     tokensEarned { h with meditation_minutes := some 0 } =
       tokensEarned { h with meditation_minutes := none }) ∧
    calculate_health_score allZeroHabit = 0 ∧ tokensEarned allZeroHabit = 0 := by
  refine ⟨⟨?_, ?_, ?_, ?_, ?_, ?_, ?_, ?_⟩, ⟨?_, ?_, ?_, ?_, ?_, ?_, ?_, ?_⟩,
    ?_, ?_⟩ <;>
    simp [calculate_health_score, contribs, sleepContrib, exerciseContrib,
      stepsContrib, waterContrib, nutritionContrib, moodContrib, stressContrib,
      tokensEarned, sleepBonus, exerciseBonus, stepsBonus, waterBonus,
      nutritionBonus, moodBonus, meditationBonus, stressBonus,
      contribStep, allZeroHabit, emptyHabit]

/-! ## The score stays in [0, 100] on inputs conforming to the data model -/

/-- A habit input conforming to the spec's data model: the physical and
nutrition metrics are nonnegative when supplied and the mental 1-5 scales
are within range when supplied. -/
def ValidHabit (h : HabitData) : Prop :=
  (∀ x, h.sleep_hours = some x → 0 ≤ x) ∧
  (∀ x, h.exercise_minutes = some x → 0 ≤ x) ∧
  (∀ x, h.steps_count = some x → 0 ≤ x) ∧
  (∀ x, h.water_glasses = some x → 0 ≤ x) ∧
  (∀ x, h.fruits_vegetables = some x → 0 ≤ x) ∧
  (∀ x, h.mood_rating = some x → 1 ≤ x ∧ x ≤ 5) ∧
  (∀ x, h.stress_level = some x → 1 ≤ x ∧ x ≤ 5)

lemma sleepContrib_bounds {h : HabitData} {x : ℚ} (hx : sleepContrib h = some x) :
    0 ≤ x ∧ x ≤ 25 := by
  rcases hs : h.sleep_hours with _ | s
  · simp [sleepContrib, hs] at hx
  · simp only [sleepContrib, hs] at hx
    by_cases h0 : s = 0
    · simp [h0] at hx
    · rw [if_neg h0, Option.some.injEq] at hx
      subst hx
      refine ⟨le_min (by norm_num) (le_max_left _ _), ?_⟩
      exact (min_le_left _ _).trans (by norm_num)

lemma exerciseContrib_bounds {h : HabitData} {x : ℚ}
    (hv : ∀ y, h.exercise_minutes = some y → (0 : ℤ) ≤ y)
    (hx : exerciseContrib h = some x) : 0 ≤ x ∧ x ≤ 25 := by
  rcases hs : h.exercise_minutes with _ | e
  · simp [exerciseContrib, hs] at hx
  · simp only [exerciseContrib, hs] at hx
    by_cases h0 : e = 0
    · simp [h0] at hx
    · rw [if_neg h0, Option.some.injEq] at hx
      subst hx
      have he : (0 : ℚ) ≤ (e : ℚ) := by exact_mod_cast hv e hs
      exact ⟨le_min (by norm_num) (by positivity), min_le_left _ _⟩

lemma stepsContrib_bounds {h : HabitData} {x : ℚ}
    (hv : ∀ y, h.steps_count = some y → (0 : ℤ) ≤ y)
    (hx : stepsContrib h = some x) : 0 ≤ x ∧ x ≤ 25 := by
  rcases hs : h.steps_count with _ | c
  · simp [stepsContrib, hs] at hx
  · simp only [stepsContrib, hs] at hx
    by_cases h0 : c = 0
    · simp [h0] at hx
    · rw [if_neg h0, Option.some.injEq] at hx
      subst hx
      have hc : (0 : ℚ) ≤ (c : ℚ) := by exact_mod_cast hv c hs
      exact ⟨le_min (by norm_num) (by positivity),
        (min_le_left _ _).trans (by norm_num)⟩

lemma waterContrib_bounds {h : HabitData} {x : ℚ}
    (hv : ∀ y, h.water_glasses = some y → (0 : ℤ) ≤ y)
    (hx : waterContrib h = some x) : 0 ≤ x ∧ x ≤ 25 := by
  rcases hs : h.water_glasses with _ | w
  · simp [waterContrib, hs] at hx
  · simp only [waterContrib, hs] at hx
    by_cases h0 : w = 0
    · simp [h0] at hx
    · rw [if_neg h0, Option.some.injEq] at hx
      subst hx
      have hw : (0 : ℚ) ≤ (w : ℚ) := by exact_mod_cast hv w hs
      exact ⟨le_min (by norm_num) (by positivity),
        (min_le_left _ _).trans (by norm_num)⟩

lemma nutritionContrib_bounds {h : HabitData} {x : ℚ}
    (hv : ∀ y, h.fruits_vegetables = some y → (0 : ℤ) ≤ y)
    (hx : nutritionContrib h = some x) : 0 ≤ x ∧ x ≤ 25 := by
  rcases hs : h.fruits_vegetables with _ | f
  · simp [nutritionContrib, hs] at hx
  · simp only [nutritionContrib, hs] at hx
    by_cases h0 : f = 0
    · simp [h0] at hx
    · rw [if_neg h0, Option.some.injEq] at hx
      subst hx
      have hf : (0 : ℚ) ≤ (f : ℚ) := by exact_mod_cast hv f hs
      exact ⟨le_min (by norm_num) (by positivity),
        (min_le_left _ _).trans (by norm_num)⟩

lemma moodContrib_bounds {h : HabitData} {x : ℚ}
    (hv : ∀ y, h.mood_rating = some y → (1 : ℤ) ≤ y ∧ y ≤ 5)
    (hx : moodContrib h = some x) : 0 ≤ x ∧ x ≤ 25 := by
  rcases hs : h.mood_rating with _ | m
  · simp [moodContrib, hs] at hx
  · simp only [moodContrib, hs] at hx
    by_cases h0 : m = 0
    · simp [h0] at hx
    · rw [if_neg h0, Option.some.injEq] at hx
      subst hx
      obtain ⟨hm1, hm5⟩ := hv m hs
      have hm1 : (1 : ℚ) ≤ (m : ℚ) := by exact_mod_cast hm1
      have hm5 : (m : ℚ) ≤ 5 := by exact_mod_cast hm5
      constructor <;> nlinarith

lemma stressContrib_bounds {h : HabitData} {x : ℚ}
    (hv : ∀ y, h.stress_level = some y → (1 : ℤ) ≤ y ∧ y ≤ 5)
    (hx : stressContrib h = some x) : 0 ≤ x ∧ x ≤ 25 := by
  rcases hs : h.stress_level with _ | st
  · simp [stressContrib, hs] at hx
  · simp only [stressContrib, hs] at hx
    by_cases h0 : st = 0
    · simp [h0] at hx
    · rw [if_neg h0, Option.some.injEq] at hx
      subst hx
      obtain ⟨hs1, _⟩ := hv st hs
      have hs1 : (1 : ℚ) ≤ (st : ℚ) := by exact_mod_cast hs1
      exact ⟨le_max_left _ _, max_le (by norm_num) (by nlinarith)⟩

/-- On a data-model-conforming input, every present contribution lies in
[0, 25]. -/
lemma presentContribs_bounds {h : HabitData} (hv : ValidHabit h) :
    ∀ x ∈ presentContribs h, 0 ≤ x ∧ x ≤ 25 := by
  obtain ⟨v1, v2, v3, v4, v5, v6, v7⟩ := hv
  intro x hx
  rw [presentContribs, List.reduceOption_mem_iff] at hx
  simp only [contribs, List.mem_cons, List.not_mem_nil, or_false] at hx
  rcases hx with hx | hx | hx | hx | hx | hx | hx
  · exact sleepContrib_bounds hx.symm
  · exact exerciseContrib_bounds v2 hx.symm
  · exact stepsContrib_bounds v3 hx.symm
  · exact waterContrib_bounds v4 hx.symm
  · exact nutritionContrib_bounds v5 hx.symm
  · exact moodContrib_bounds v6 hx.symm
  · exact stressContrib_bounds v7 hx.symm

lemma avg_bounds (l : List ℚ) (hb : ∀ x ∈ l, 0 ≤ x ∧ x ≤ 25) :
    0 ≤ (if l = [] then (0 : ℚ) else l.sum / (l.length : ℚ)) ∧
      (if l = [] then (0 : ℚ) else l.sum / (l.length : ℚ)) ≤ 100 := by
  by_cases hl : l = []
  · simp [hl]
  · have hlen : (0 : ℚ) < (l.length : ℚ) := by
      exact_mod_cast List.length_pos.mpr hl
    have hsum0 : 0 ≤ l.sum := List.sum_nonneg fun x hx => (hb x hx).1
    have hsum : l.sum ≤ l.length • (25 : ℚ) :=
      List.sum_le_card_nsmul l 25 fun x hx => (hb x hx).2
    rw [nsmul_eq_mul] at hsum
    rw [if_neg hl]
    constructor
    · positivity
    · rw [div_le_iff₀ hlen]
      nlinarith

/-- C2: for every habit input conforming to the data model (any combination
of supplied and absent metrics), the returned health score lies in [0, 100]. -/
theorem score_in_range (h : HabitData) (hv : ValidHabit h) :
    0 ≤ calculate_health_score h ∧ calculate_health_score h ≤ 100 := by
  rw [score_eq_avg]
  exact avg_bounds _ (presentContribs_bounds hv)

/-- A habit submission with every metric supplied at a data-model-maximal
healthy value. -/
def fullHabit : HabitData where
  sleep_hours := some 8
  exercise_minutes := some 45
  steps_count := some 10000
  water_glasses := some 10
  fruits_vegetables := some 5
  calories_consumed := some 2000
  mood_rating := some 5
  stress_level := some 1
  meditation_minutes := some 15
  weight := none
  blood_pressure_systolic := none
  blood_pressure_diastolic := none
  heart_rate := none

/-- C2 (witness): the all-metrics habit submission is valid and its score
is within [0, 100]. -/
theorem score_in_range_witness :
    0 ≤ calculate_health_score fullHabit ∧
      calculate_health_score fullHabit ≤ 100 :=
  score_in_range fullHabit
    (by
      refine ⟨?_, ?_, ?_, ?_, ?_, ?_, ?_⟩ <;>
        (intro x hx; simp [fullHabit] at hx; subst hx) <;> norm_num)

/-! ## The token reward is the sum of the spec's threshold bonuses -/

/-- Modelled from the claim's words, for refinement comparison with
`tokensEarned`: the sum of the independent per-metric threshold bonuses,
each bonus earned exactly when the metric is supplied and meets its
inclusive threshold (sleep ≥ 7 → 20, exercise ≥ 30 → 30, steps ≥ 8000 → 25,
water ≥ 8 → 15, fruit/veg ≥ 3 → 20, mood ≥ 4 → 10, meditation ≥ 10 → 15,
stress ≤ 2 → 10). -/
def specTokenReward (h : HabitData) : ℤ :=
  (match h.sleep_hours with | some s => if 7 ≤ s then 20 else 0 | none => 0) +
  (match h.exercise_minutes with | some e => if 30 ≤ e then 30 else 0 | none => 0) +
  (match h.steps_count with | some c => if 8000 ≤ c then 25 else 0 | none => 0) +
  (match h.water_glasses with | some w => if 8 ≤ w then 15 else 0 | none => 0) +
  (match h.fruits_vegetables with | some f => if 3 ≤ f then 20 else 0 | none => 0) +
  (match h.mood_rating with | some m => if 4 ≤ m then 10 else 0 | none => 0) +
  (match h.meditation_minutes with | some m => if 10 ≤ m then 15 else 0 | none => 0) +
  (match h.stress_level with | some st => if st ≤ 2 then 10 else 0 | none => 0)

lemma sleepBonus_eq (h : HabitData) :
    sleepBonus h =
      match h.sleep_hours with | some s => if 7 ≤ s then 20 else 0 | none => 0 := by
  rcases hs : h.sleep_hours with _ | s <;> simp only [sleepBonus, hs]
  by_cases h7 : 7 ≤ s
  · have h0 : s ≠ 0 := by intro h0; rw [h0] at h7; norm_num at h7
    simp [h7, h0]
  · simp [h7]

lemma exerciseBonus_eq (h : HabitData) :
    exerciseBonus h =
      match h.exercise_minutes with | some e => if 30 ≤ e then 30 else 0 | none => 0 := by
  rcases hs : h.exercise_minutes with _ | e <;> simp only [exerciseBonus, hs]
  by_cases ht : 30 ≤ e
  · have h0 : e ≠ 0 := by omega
    simp [ht, h0]
  · simp [ht]

lemma stepsBonus_eq (h : HabitData) :
    stepsBonus h =
      match h.steps_count with | some c => if 8000 ≤ c then 25 else 0 | none => 0 := by
  rcases hs : h.steps_count with _ | c <;> simp only [stepsBonus, hs]
  by_cases ht : 8000 ≤ c
  · have h0 : c ≠ 0 := by omega
    simp [ht, h0]
  · simp [ht]

lemma waterBonus_eq (h : HabitData) :
    waterBonus h =
      match h.water_glasses with | some w => if 8 ≤ w then 15 else 0 | none => 0 := by
  rcases hs : h.water_glasses with _ | w <;> simp only [waterBonus, hs]
  by_cases ht : 8 ≤ w
  · have h0 : w ≠ 0 := by omega
    simp [ht, h0]
  · simp [ht]

lemma nutritionBonus_eq (h : HabitData) :
    nutritionBonus h =
      match h.fruits_vegetables with | some f => if 3 ≤ f then 20 else 0 | none => 0 := by
  rcases hs : h.fruits_vegetables with _ | f <;> simp only [nutritionBonus, hs]
  by_cases ht : 3 ≤ f
  · have h0 : f ≠ 0 := by omega
    simp [ht, h0]
  · simp [ht]

lemma moodBonus_eq (h : HabitData) :
    moodBonus h =
      match h.mood_rating with | some m => if 4 ≤ m then 10 else 0 | none => 0 := by
  rcases hs : h.mood_rating with _ | m <;> simp only [moodBonus, hs]
  by_cases ht : 4 ≤ m
  · have h0 : m ≠ 0 := by omega
    simp [ht, h0]
  · simp [ht]

lemma meditationBonus_eq (h : HabitData) :
    meditationBonus h =
      match h.meditation_minutes with | some m => if 10 ≤ m then 15 else 0 | none => 0 := by
  rcases hs : h.meditation_minutes with _ | m <;> simp only [meditationBonus, hs]
  by_cases ht : 10 ≤ m
  · have h0 : m ≠ 0 := by omega
    simp [ht, h0]
  · simp [ht]

lemma stressBonus_eq (h : HabitData)
    (hnz : ∀ v, h.stress_level = some v → v ≠ 0) :
    stressBonus h =
      match h.stress_level with | some st => if st ≤ 2 then 10 else 0 | none => 0 := by
  rcases hs : h.stress_level with _ | st <;> simp only [stressBonus, hs]
  have h0 : st ≠ 0 := hnz st hs
  by_cases ht : st ≤ 2
  · simp [ht, h0]
  · simp [ht]

/-- C5: for every habit input whose stress level, when supplied, is a
genuine 1-5 scale value (non-zero — for the falsy value 0 the source skips
the bonus), the token reward equals the sum of the independent per-metric
threshold bonuses with inclusive thresholds, computed from the metrics
alone, independently of the health-score computation. -/
theorem tokens_earned_eq_spec_reward (h : HabitData)
    (hnz : ∀ v, h.stress_level = some v → v ≠ 0) :
    tokensEarned h = specTokenReward h := by
  rw [tokensEarned, specTokenReward, sleepBonus_eq, exerciseBonus_eq,
    stepsBonus_eq, waterBonus_eq, nutritionBonus_eq, moodBonus_eq,
    meditationBonus_eq, stressBonus_eq h hnz]

/-- A habit submission with every rewarded metric exactly at its bonus
threshold. -/
def thresholdHabit : HabitData where
  sleep_hours := some 7
  exercise_minutes := some 30
  steps_count := some 8000
  water_glasses := some 8
  fruits_vegetables := some 3
  calories_consumed := none
  mood_rating := some 4
  stress_level := some 2
  meditation_minutes := some 10
  weight := none
  blood_pressure_systolic := none
  blood_pressure_diastolic := none
  heart_rate := none

/-- C5 (witness): at the exact thresholds every bonus fires, the computed
reward matches the spec-side sum, and it totals
20+30+25+15+20+10+15+10 = 145. -/
theorem tokens_earned_eq_spec_reward_witness :
    tokensEarned thresholdHabit = specTokenReward thresholdHabit ∧
      tokensEarned thresholdHabit = 145 := by
  constructor
  · exact tokens_earned_eq_spec_reward thresholdHabit
      (by intro v hv; simp [thresholdHabit] at hv; omega)
  · norm_num [tokensEarned, sleepBonus, exerciseBonus, stepsBonus, waterBonus,
      nutritionBonus, moodBonus, meditationBonus, stressBonus, thresholdHabit]

/-! ## Normalizer behaviour on decode success and decode failure -/

/-- C3 (counterexample): the decode-failure fallback of the medical-record
analyzer is not independent of the raw text: two different non-JSON raw
texts produce two different fallback payloads, the raw text itself being
embedded as the `summary` field. -/
theorem med_fallback_depends_on_raw_text :
    medRecordDecodeFallback "A" ≠ medRecordDecodeFallback "B" ∧
      (medRecordDecodeFallback "A").summary = "A" := by
  refine ⟨by decide, by decide⟩

/-- C3 (amended): text that decodes as JSON is returned exactly as decoded,
text that fails to decode yields the context-specific fallback and never an
exception — but in the medical-record analyzer the fallback's `summary`
field embeds the raw text (truncated to 300 characters with `"..."`), only
the remaining four fields being fixed; the medication-checker decode
fallback, by contrast, is a constant independent of the raw text. -/
theorem normalizer_decoded_or_context_fallback {J : Type}
    (decode : String → Option J) (inj : MedAnalysisFallback → J)
    (response : String) :
    (∀ j, decode response = some j →
       analyzeMedicalRecord decode inj (.ok response) = j) ∧
    (decode response = none →
       analyzeMedicalRecord decode inj (.ok response) =
         inj (medRecordDecodeFallback response)) ∧
    ((medRecordDecodeFallback response).summary =
       (if response.length > 300 then response.take 300 ++ "..." else response) ∧
     (medRecordDecodeFallback response).risk_assessment =
       (medRecordDecodeFallback "").risk_assessment ∧
     (medRecordDecodeFallback response).health_metrics_status = "extracted" ∧
     (medRecordDecodeFallback response).recommendations =
       (medRecordDecodeFallback "").recommendations ∧
     (medRecordDecodeFallback response).priority_level = "Medium") ∧
    (∀ decodeM : String → Option MedCheckFallback, decodeM response = none →
       checkMedicationInteractions decodeM id (.ok response) =
         medCheckDecodeFallback) := by
  refine ⟨?_, ?_, ⟨rfl, rfl, rfl, rfl, rfl⟩, ?_⟩
  · intro j hj
    simp [analyzeMedicalRecord, hj]
  · intro hn
    simp [analyzeMedicalRecord, hn]
  · intro decodeM hn
    simp [checkMedicationInteractions, hn]

/-- C3 (witness): on a concrete non-decoding response the medical-record
analyzer returns the decode fallback built from that raw text. -/
theorem normalizer_decoded_or_context_fallback_witness :
    analyzeMedicalRecord (fun _ => (none : Option MedAnalysisFallback)) id
        (.ok "not json") = medRecordDecodeFallback "not json" :=
  (normalizer_decoded_or_context_fallback
      (fun _ => (none : Option MedAnalysisFallback)) id "not json").2.1 rfl

/-- C4 (counterexample): for the medication-interaction endpoint the two
failure modes are observably different: a response that fails JSON decoding
yields the `"unknown"`-level fallback while a raised LLM-call error yields
the `"error"`-level fallback. -/
theorem medcheck_failure_modes_differ :
    checkMedicationInteractions
        (fun _ : String => (none : Option MedCheckFallback)) id
        (.ok "not json") ≠
      checkMedicationInteractions
        (fun _ : String => (none : Option MedCheckFallback)) id .err := by
  intro heq
  simp only [checkMedicationInteractions, id] at heq
  have hlvl := congrArg MedCheckFallback.interaction_level heq
  simp [medCheckDecodeFallback, medCheckErrorFallback] at hlvl

/-- C4 (amended): both failure modes — a raised LLM-call error and a
non-decoding LLM response — are converted to complete fallback payloads
rather than surfaced as errors, but the two payloads coincide only for the
predictive-trends analysis; for the medical-record analysis and the
medication-interaction check the two failure modes produce observably
different fallbacks. -/
theorem failure_modes_fallbacks (response : String) (health_score : ℚ) :
    (∀ decode : String → Option MedAnalysisFallback, decode response = none →
       analyzeMedicalRecord decode id (.ok response) ≠
         analyzeMedicalRecord decode id .err) ∧
    (∀ decode : String → Option MedCheckFallback, decode response = none →
       checkMedicationInteractions decode id (.ok response) ≠
         checkMedicationInteractions decode id .err) ∧
    (∀ (J : Type) (decode : String → Option J) (inj : FallbackAnalysis → J),
       decode response = none →
       analyzeHealthTrends decode inj health_score (.ok response) =
         analyzeHealthTrends decode inj health_score .err) := by
  refine ⟨?_, ?_, ?_⟩
  · intro decode hn heq
    simp only [analyzeMedicalRecord, hn, id] at heq
    have hst := congrArg MedAnalysisFallback.health_metrics_status heq
    simp [medRecordDecodeFallback, medRecordErrorFallback] at hst
  · intro decode hn heq
    simp only [checkMedicationInteractions, hn, id] at heq
    have hlvl := congrArg MedCheckFallback.interaction_level heq
    simp [medCheckDecodeFallback, medCheckErrorFallback] at hlvl
  · intro J decode inj hn
    simp [analyzeHealthTrends, hn]

/-- C4 (witness): concrete instances — the trends endpoint gives identical
results for the two failure modes, the medical-record endpoint does not. -/
theorem failure_modes_fallbacks_witness :
    analyzeHealthTrends (fun _ => (none : Option FallbackAnalysis)) id 85
        (.ok "oops") =
      analyzeHealthTrends (fun _ => (none : Option FallbackAnalysis)) id 85
        .err ∧
    analyzeMedicalRecord (fun _ => (none : Option MedAnalysisFallback)) id
        (.ok "oops") ≠
      analyzeMedicalRecord (fun _ => (none : Option MedAnalysisFallback)) id
        .err :=
  ⟨(failure_modes_fallbacks "oops" 85).2.2 _ _ id rfl,
   (failure_modes_fallbacks "oops" 85).1 _ rfl⟩

/-! ## Urgency classifier tiers -/

/-- C7: over the classifier's lowercased combined text, an occurrence of
the emergency term "chest pain" forces `emergency` regardless of any other
content; an occurrence of "doctor" with no emergency term present yields
`high`; text containing none of the listed terms yields `medium` — the
tiers being checked in priority order with the first match winning. -/
theorem urgency_tiers (message response : String) :
    (containsL ("chest pain".toList) (urgencyText message response) = true →
       analyzeUrgency message response = "emergency") ∧
    ((∀ k ∈ emergencyKeywords,
        containsL k (urgencyText message response) = false) →
      containsL ("doctor".toList) (urgencyText message response) = true →
      analyzeUrgency message response = "high") ∧
    ((∀ k ∈ emergencyKeywords,
        containsL k (urgencyText message response) = false) →
      (∀ k ∈ highKeywords,
        containsL k (urgencyText message response) = false) →
      analyzeUrgency message response = "medium") := by
  refine ⟨?_, ?_, ?_⟩
  · intro hc
    have hany : emergencyKeywords.any
        (fun k => containsL k (urgencyText message response)) = true :=
      List.any_eq_true.mpr ⟨"chest pain".toList, by simp [emergencyKeywords], hc⟩
    simp only [analyzeUrgency, hany, if_true]
  · intro hne hd
    have hanyE : emergencyKeywords.any
        (fun k => containsL k (urgencyText message response)) = false := by
      simp only [List.any_eq_false]
      intro k hk
      simp [hne k hk]
    have hanyH : highKeywords.any
        (fun k => containsL k (urgencyText message response)) = true :=
      List.any_eq_true.mpr ⟨"doctor".toList, by simp [highKeywords], hd⟩
    simp only [analyzeUrgency, hanyE, hanyH, Bool.false_eq_true, if_false,
      if_true]
  · intro hne hnh
    have hanyE : emergencyKeywords.any
        (fun k => containsL k (urgencyText message response)) = false := by
      simp only [List.any_eq_false]
      intro k hk
      simp [hne k hk]
    have hanyH : highKeywords.any
        (fun k => containsL k (urgencyText message response)) = false := by
      simp only [List.any_eq_false]
      intro k hk
      simp [hnh k hk]
    simp only [analyzeUrgency, hanyE, hanyH, Bool.false_eq_true, if_false]

/-- C7 (witness): concrete texts land in each tier — "chest pain" (even
with the high-tier word "doctor" also present) classifies as emergency,
"doctor" alone as high, and an unlisted text as medium. -/
theorem urgency_tiers_witness :
    analyzeUrgency "I told my doctor about chest pain" "" = "emergency" ∧
    analyzeUrgency "should I see a doctor" "" = "high" ∧
    analyzeUrgency "hello there" "" = "medium" :=
  ⟨(urgency_tiers "I told my doctor about chest pain" "").1 (by decide),
   (urgency_tiers "should I see a doctor" "").2.1 (by decide) (by decide),
   (urgency_tiers "hello there" "").2.2 (by decide) (by decide)⟩

/-! ## At most one habit record per (user, date) -/

/-- No two rows of the habit collection share a (user, date) key. -/
def habitKeyUnique (s : List HabitRow) : Prop :=
  s.Pairwise fun a b => ¬(a.user_id = b.user_id ∧ a.date = b.date)

lemma logHabit_of_dup {s : List HabitRow} {u t : String} (d : HabitData)
    (hr : ∃ r ∈ s, r.user_id = u ∧ r.date = t) :
    logHabit s u t d = none := by
  obtain ⟨r, hrs, hru, hrt⟩ := hr
  unfold logHabit
  rw [if_pos]
  exact List.any_eq_true.mpr ⟨r, hrs, by simp [hru, hrt]⟩

lemma logHabit_of_fresh {s : List HabitRow} {u t : String} (d : HabitData)
    (hr : ∀ r ∈ s, ¬(r.user_id = u ∧ r.date = t)) :
    logHabit s u t d =
      some (s ++ [{ user_id := u, date := t, data := d,
                    tokens_earned := tokensEarned d,
                    health_score_impact := calculate_health_score d }],
            { user_id := u, date := t, data := d,
              tokens_earned := tokensEarned d,
              health_score_impact := calculate_health_score d }) := by
  unfold logHabit
  rw [if_neg]
  simp only [List.any_eq_true, not_exists, not_and]
  intro r hrs
  simp only [Bool.and_eq_true, beq_iff_eq]
  intro hand
  exact hr r hrs hand

lemma reachable_habitKeyUnique {s : List HabitRow}
    (hs : HabitsReachable s) : habitKeyUnique s := by
  induction hs with
  | init => exact List.Pairwise.nil
  | log hprev hlog ih =>
    rename_i s s' u t d r
    unfold logHabit at hlog
    by_cases hdup : s.any fun r => r.user_id == u && r.date == t
    · rw [if_pos hdup] at hlog
      exact absurd hlog (by simp)
    · rw [if_neg hdup] at hlog
      simp only [Option.some.injEq, Prod.mk.injEq] at hlog
      obtain ⟨hst, -⟩ := hlog
      subst hst
      rw [habitKeyUnique, List.pairwise_append]
      refine ⟨ih, List.pairwise_singleton _ _, ?_⟩
      intro a ha b hb
      simp only [List.mem_singleton] at hb
      subst hb
      simp only [not_and]
      intro hau hat
      rw [List.any_eq_true] at hdup
      exact absurd ⟨a, ha, by simp [hau, hat]⟩ hdup

/-- C6: on every reachable habit-collection state the (user, date) key is
unique; a habit-log request for a user who already has a record for the
requested day is rejected (no insert happens), while a request for a
(user, day) pair with no existing record — in particular a different day
for the same user — succeeds and appends exactly one row carrying that
user and day. -/
theorem habit_log_unique_per_user_date (s : List HabitRow) (u t : String)
    (d : HabitData) :
    (HabitsReachable s → habitKeyUnique s) ∧
    ((∃ r ∈ s, r.user_id = u ∧ r.date = t) → logHabit s u t d = none) ∧
    ((∀ r ∈ s, ¬(r.user_id = u ∧ r.date = t)) →
      ∃ row, logHabit s u t d = some (s ++ [row], row) ∧
        row.user_id = u ∧ row.date = t) :=
  ⟨fun hr => reachable_habitKeyUnique hr,
   fun hdup => logHabit_of_dup d hdup,
   fun hfresh => ⟨_, logHabit_of_fresh d hfresh, rfl, rfl⟩⟩

/-- The habit row inserted by the first log of `emptyHabit` on day one. -/
def day1Row : HabitRow where
  user_id := "u1"
  date := "2026-10-11"
  data := emptyHabit
  tokens_earned := tokensEarned emptyHabit
  health_score_impact := calculate_health_score emptyHabit

/-- C6 (witness): with day one already logged for user `u1`, a second
same-day log is rejected and a log for the following day succeeds. -/
theorem habit_log_unique_per_user_date_witness :
    logHabit [day1Row] "u1" "2026-10-11" emptyHabit = none ∧
    (∃ row, logHabit [day1Row] "u1" "2026-10-12" emptyHabit =
        some ([day1Row] ++ [row], row) ∧
      row.user_id = "u1" ∧ row.date = "2026-10-12") :=
  ⟨(habit_log_unique_per_user_date [day1Row] "u1" "2026-10-11" emptyHabit).2.1
      ⟨day1Row, by simp, rfl, rfl⟩,
   (habit_log_unique_per_user_date [day1Row] "u1" "2026-10-12" emptyHabit).2.2
      (by
        intro r hr
        simp only [List.mem_singleton] at hr
        subst hr
        simp [day1Row])⟩

/-! ## The materialized token balance equals the ledger sum -/

lemma ledgerSum_append_single (l : List Txn) (t : Txn) (uid : String) :
    ledgerSum (l ++ [t]) uid =
      ledgerSum l uid + (if t.user_id = uid then t.amount else 0) := by
  unfold ledgerSum
  rw [List.filter_append]
  by_cases ht : t.user_id = uid
  · simp [ht]
  · have hb : (t.user_id == uid) = false := beq_eq_false_iff_ne.mpr ht
    simp [List.filter, ht, hb]

lemma ledgerSum_of_fresh (l : List Txn) (uid : String)
    (hf : ∀ t ∈ l, t.user_id ≠ uid) : ledgerSum l uid = 0 := by
  unfold ledgerSum
  rw [List.filter_eq_nil_iff.mpr]
  · simp
  · intro t ht
    simp [hf t ht]

/-- C9: from any sequence of user creations and token awards starting at
empty collections, every user document's materialized `tokens` counter
equals the sum of the signed amounts of that user's ledger entries —
each award increments the balance by exactly the amount appended to the
ledger in the same operation. -/
theorem token_balance_eq_ledger_sum (s : TokenState)
    (hs : TokenReachable s) :
    ∀ u ∈ s.users, u.tokens = ledgerSum s.ledger u.id := by
  induction hs with
  | init => simp
  | create hprev hfreshU hfreshL ih =>
    rename_i s id
    intro u hu
    simp only [createUser, List.mem_append, List.mem_singleton] at hu
    rcases hu with hu | hu
    · exact ih u hu
    · subst hu
      exact (ledgerSum_of_fresh s.ledger id hfreshL).symm
  | award hprev ih =>
    rename_i s uid amt
    intro u hu
    simp only [awardTokens, List.mem_map] at hu
    obtain ⟨v, hv, hvu⟩ := hu
    subst hvu
    simp only [awardTokens]
    by_cases hid : v.id = uid
    · rw [if_pos (show (v.id == uid) = true by simp [hid])]
      show v.tokens + amt =
        ledgerSum (s.ledger ++ [{ user_id := uid, amount := amt }]) v.id
      rw [ledgerSum_append_single, ih v hv]
      simp [hid]
    · rw [if_neg (show ¬(v.id == uid) = true by simp [hid])]
      show v.tokens =
        ledgerSum (s.ledger ++ [{ user_id := uid, amount := amt }]) v.id
      rw [ledgerSum_append_single, ih v hv]
      simp [Ne.symm hid]

/-- The token state after creating user `u1` and awarding 50 tokens. -/
def exampleTokenState : TokenState :=
  awardTokens (createUser { users := [], ledger := [] } "u1") "u1" 50

/-- C9 (witness): in the concrete reachable state with one created user
and one 50-token award, the stored balance of `u1` equals the ledger sum. -/
theorem token_balance_eq_ledger_sum_witness :
    ({ id := "u1", tokens := 50 } : UserRow) ∈ exampleTokenState.users ∧
      (50 : ℤ) = ledgerSum exampleTokenState.ledger "u1" :=
  ⟨by decide,
   token_balance_eq_ledger_sum exampleTokenState
     (TokenReachable.award
       (TokenReachable.create TokenReachable.init (by simp) (by simp)))
     { id := "u1", tokens := 50 } (by decide)⟩

end HealthSync
